import Mathlib

/-
Verification of kernelmethods (utils.py and, where the module kernelmethods.base
is referenced only through its tests, a model built from the specification).

Arrays are embedded shallowly: an ndarray is a shape (list of axis sizes), a
dtype tag and a flat row-major data buffer of integer-valued scalars.  The
numeric content of the scalars is irrelevant to every property below, so Int
is used for the buffer.  Errors are values of an explicit error type; a Python
raise becomes an Except.error value.
-/

/-- Error kinds raised by the library.  Each Python exception class used by the
code is a separate constructor, so that distinctness of error kinds is
expressible as constructor disjointness. -/
inductive PyError where
  | valueError (msg : String)
  | typeError (msg : String)
  | indexError (msg : String)
  | kmSetAdditionError (msg : String)
  deriving DecidableEq, Repr

/-- Concrete array dtypes relevant to the validation utilities: two numeric
dtypes, a string dtype whose entries all parse as numbers (astype to a numeric
dtype succeeds), and a dtype for which the astype call in ensure_ndarray_size
raises (for example a string dtype with non-numeric entries). -/
inductive DType where
  | float64
  | int64
  | numericStr
  | objBad
  deriving DecidableEq, Repr

/-- Shallow embedding of a numpy ndarray: shape, dtype tag and flat row-major
buffer.  Casting a buffer to a numeric dtype preserves the scalar values, so
the buffer representation does not change under astype. -/
structure NDArray where
  shape : List Nat
  dtype : DType
  data : List Int
  deriving DecidableEq, Repr

/-- Number of dimensions, numpy array.ndim. -/
def NDArray.ndim (a : NDArray) : Nat := a.shape.length

/-- Total number of elements, numpy array.size (product of the shape). -/
def NDArray.size (a : NDArray) : Nat := a.shape.prod

/-- Embedding of np.squeeze(array, axis=axes_to_sqz) where axes_to_sqz is the
tuple of axes ax with size 1 and ax > k, as computed in ensure_ndarray_1D
(k = 0) and ensure_ndarray_2D (k = 1).  Squeezing removes those axes from the
shape and leaves the row-major buffer untouched. -/
def squeezeShape (k : Nat) (shape : List Nat) : List Nat :=
  (shape.enum.filter (fun p => if k < p.1 ∧ p.2 = 1 then false else true)).map Prod.snd

/-- Embedding of array.astype(ensure_dtype) at the library default
ensure_dtype = np.number: np.dtype(np.number) resolves to float64, so the cast
produces a float64 array with the same values, except when the source dtype
cannot be recast, in which case astype raises. -/
def castToNumber : DType → Option DType
  | .objBad => none
  | _ => some .float64

/-- Embedding of ensure_ndarray_size(array, ensure_dtype=np.number,
ensure_num_dim).  The dimension check raises ValueError on mismatch.  The guard
np.issubdtype(ensure_dtype, array.dtype) compares the abstract class np.number
against the concrete dtype of the array and is False for every concrete dtype,
so the astype branch is always taken; a failure of astype is caught by the bare
except and re-raised as ValueError. -/
def ensure_ndarray_size (array : NDArray) (ensure_num_dim : Nat) : Except PyError NDArray :=
  if array.ndim ≠ ensure_num_dim then
    .error (.valueError "array must be of the required dimension")
  else
    match castToNumber array.dtype with
    | some d => .ok { array with dtype := d }
    | none => .error (.valueError "Unable to recast input dtype to required number")

/-- Embedding of ensure_ndarray_1D(array, ensure_dtype=np.number): squeeze the
singleton axes beyond the first, then require a 1-D numeric array. -/
def ensure_ndarray_1D (array : NDArray) : Except PyError NDArray :=
  ensure_ndarray_size { array with shape := squeezeShape 0 array.shape } 1

/-- Embedding of ensure_ndarray_2D(array, ensure_dtype=np.number,
ensure_num_cols): squeeze the singleton axes beyond the second, require a 2-D
numeric array, then compare the column count against ensure_num_cols when one
is requested. -/
def ensure_ndarray_2D (array : NDArray) (ensure_num_cols : Option Nat) :
    Except PyError NDArray :=
  match ensure_ndarray_size { array with shape := squeezeShape 1 array.shape } 2 with
  | .error e => .error e
  | .ok a2 =>
      match ensure_num_cols with
      | some c =>
          if a2.shape.getD 1 0 ≠ c then
            .error (.valueError "The number of columns differ from expected")
          else
            .ok a2
      | none => .ok a2

/-- Embedding of check_input_arrays(x, y, ensure_dtype=np.number): coerce both
inputs to 1-D numeric arrays, raise ValueError when the coerced sizes differ,
otherwise return the pair of coerced arrays. -/
def check_input_arrays (x y : NDArray) : Except PyError (NDArray × NDArray) :=
  match ensure_ndarray_1D x with
  | .error e => .error e
  | .ok x1 =>
      match ensure_ndarray_1D y with
      | .error e => .error e
      | .ok y1 =>
          if x1.size ≠ y1.size then
            .error (.valueError "x and y differ in size! They must be of same length")
          else
            .ok (x1, y1)

/-- An input to check_callable: either not callable at all, or a callable whose
signature declares a number of parameters (inspect.signature succeeds on the
pure-Python callables the library validates). -/
inductive PyFuncInput where
  | notCallable
  | callable (numParams : Nat)
  deriving DecidableEq, Repr

/-- Embedding of check_callable(input_func, min_num_args): TypeError when the
input is not callable, TypeError when the signature declares fewer than
min_num_args parameters, otherwise the input function is returned unchanged.
The Python default for min_num_args is 2. -/
def check_callable (input_func : PyFuncInput) (min_num_args : Nat) :
    Except PyError PyFuncInput :=
  match input_func with
  | .notCallable => .error (.typeError "Input function must be callable!")
  | .callable n =>
      if n < min_num_args then
        .error (.typeError "Input func must accept atleast min_num_args inputs")
      else
        .ok (.callable n)

/-- A Python value passed as the name argument of get_callable_name; str(.) of
such a value is total. -/
inductive PyVal where
  | pyStr (s : String)
  | pyInt (n : Int)
  deriving DecidableEq, Repr

/-- Embedding of Python str(.) on the modelled values. -/
def pyStrOf : PyVal → String
  | .pyStr s => s
  | .pyInt n => toString n

/-- Embedding of get_callable_name(input_func, name=None).  input_func is
represented by its optional __name__ attribute (none when the attribute is
absent); name is the optional explicit name argument. -/
def get_callable_name (func_dunder_name : Option String) (name : Option PyVal) : String :=
  match name with
  | none =>
      match func_dunder_name with
      | some nm => nm
      | none => ""
  | some v => pyStrOf v

/-- An input to is_iterable_but_not_str: a string of a given length, a
non-string sized iterable of a given length, or a non-iterable object. -/
inductive PyIterInput where
  | str (len : Nat)
  | sizedIter (len : Nat)
  | nonIterable
  deriving DecidableEq, Repr

/-- Embedding of is_iterable_but_not_str(input_obj, min_length): False unless
the input is a non-string iterable, then False when its length is below
min_length and True otherwise.  The Python default for min_length is 1. -/
def is_iterable_but_not_str (input_obj : PyIterInput) (min_length : Nat) : Bool :=
  match input_obj with
  | .str _ => false
  | .nonIterable => false
  | .sizedIter n => if n < min_length then false else true

/-- Modelled from the spec: the module kernelmethods.base (KernelMatrix) is not
part of the sources, only its tests are.  A KernelMatrix owns a kernel function
(an arbitrary, not necessarily symmetric, binary function on feature rows,
capturing that floating-point evaluation of a mathematically symmetric kernel
need not be order-independent), an optional attached dataset of feature rows
(none while unattached), and a lazily grown cache keyed by the canonical
unordered index pair (min(i,j), max(i,j)). -/
structure KernelMatrix where
  kernel : List Int → List Int → Int
  dataset : Option (List (List Int))
  cache : List ((Nat × Nat) × Int)

/-- Modelled from the spec: num_samples of a KernelMatrix is the sample count
n of the attached dataset, undetermined while unattached. -/
def KernelMatrix.numSamples (km : KernelMatrix) : Option Nat :=
  km.dataset.map List.length

/-- Lookup of a canonical key in the cache. -/
def cacheLookup (c : List ((Nat × Nat) × Int)) (key : Nat × Nat) : Option Int :=
  (c.find? (fun e => e.1 = key)).map (fun e => e.2)

/-- Modelled from the spec: evaluation of one entry of an attached
KernelMatrix.  The index pair is canonicalised to (min(i,j), max(i,j)); the
cache is consulted under that key, and on a miss the kernel is applied to the
rows at the canonical indices and the result is stored.  Returns the value
together with the KernelMatrix in its post state. -/
def evalKernel (km : KernelMatrix) (data : List (List Int)) (i j : Nat) :
    Int × KernelMatrix :=
  let key : Nat × Nat := (min i j, max i j)
  match cacheLookup km.cache key with
  | some v => (v, km)
  | none =>
      let v := km.kernel (data.getD key.1 []) (data.getD key.2 [])
      (v, { km with cache := (key, v) :: km.cache })

/-- Modelled from the spec: indexed access K[i, j].  Requires an attached
dataset and 0 <= i, j < num_samples; out-of-range indices raise an indexing
error, evaluation otherwise goes through the canonical cache. -/
def KernelMatrix.getItem (km : KernelMatrix) (i j : Nat) :
    Except PyError (Int × KernelMatrix) :=
  match km.dataset with
  | none => .error (.typeError "KernelMatrix is not attached to a dataset")
  | some data =>
      if i < data.length ∧ j < data.length then
        .ok (evalKernel km data i j)
      else
        .error (.indexError "index out of range of num_samples")

/-- Value-only view of indexed access, for stating symmetry. -/
def KernelMatrix.valueAt (km : KernelMatrix) (i j : Nat) : Except PyError Int :=
  (km.getItem i j).map Prod.fst

/-- Modelled from the spec: a KernelSet owns an ordered collection of
KernelMatrix members and a num_samples, either fixed at construction or
inferred from the first appended member (none while empty and undeclared). -/
structure KernelSet where
  numSamples : Option Nat
  members : List KernelMatrix

/-- Modelled from the spec: size of a KernelSet is its number of members. -/
def KernelSet.size (ks : KernelSet) : Nat := ks.members.length

/-- Modelled from the spec: append(km) requires km to be attached and its
num_samples to equal the established num_samples of the set (or to become it when
none is established); a mismatch raises the dedicated set-addition error
KMSetAdditionError, a kind distinct from the generic value error. -/
def KernelSet.append (ks : KernelSet) (km : KernelMatrix) : Except PyError KernelSet :=
  match km.numSamples with
  | none => .error (.kmSetAdditionError "KernelMatrix must be attached to a dataset")
  | some m =>
      match ks.numSamples with
      | none => .ok { numSamples := some m, members := ks.members ++ [km] }
      | some n =>
          if m = n then
            .ok { ks with members := ks.members ++ [km] }
          else
            .error (.kmSetAdditionError "mismatched num_samples")

/-- Modelled from the spec: the post state of the set after an append call.
The size check precedes any mutation, so when append raises, the set is left
exactly as it was. -/
def KernelSet.appendPost (ks : KernelSet) (km : KernelMatrix) : KernelSet :=
  match ks.append km with
  | .ok ks2 => ks2
  | .error _ => ks

/-- An index value passed to KernelSet.__getitem__: a Python int, float or
string. -/
inductive PyIndex where
  | intIdx (k : Int)
  | floatIdx (x : Int)
  | strIdx (s : String)

/-- Fallback member used only to express in-range list access. -/
def defaultKM : KernelMatrix :=
  { kernel := fun _ _ => 0, dataset := none, cache := [] }

/-- Modelled from the spec: KernelSet.__getitem__(index).  A non-integer index
(float or string) raises a type/value error; an integer index outside
[0, size) raises the distinct bounds (indexing) error; a valid index returns
the member at that position. -/
def KernelSet.getItem (ks : KernelSet) (index : PyIndex) : Except PyError KernelMatrix :=
  match index with
  | .floatIdx _ => .error (.valueError "index must be an integer")
  | .strIdx _ => .error (.valueError "index must be an integer")
  | .intIdx k =>
      if k < 0 ∨ (ks.size : Int) ≤ k then
        .error (.indexError "index out of the valid range")
      else
        .ok (ks.members.getD k.toNat defaultKM)

/-- Modelled from the spec: the members selected by take, each index validated
by the same rules as __getitem__, in the given order. -/
def takeMembers (ks : KernelSet) : List PyIndex → Except PyError (List KernelMatrix)
  | [] => .ok []
  | index :: rest =>
      match ks.getItem index with
      | .error e => .error e
      | .ok m =>
          match takeMembers ks rest with
          | .error e => .error e
          | .ok ms => .ok (m :: ms)

/-- Modelled from the spec: take(indices) returns a new KernelSet holding the
referenced members (the member objects themselves, aliased not copied) in the
given index order. -/
def KernelSet.take (ks : KernelSet) (indices : List PyIndex) : Except PyError KernelSet :=
  match takeMembers ks indices with
  | .error e => .error e
  | .ok mems => .ok { numSamples := ks.numSamples, members := mems }

/-- Modelled from the spec: take is a non-destructive projection, the original
KernelSet is unmodified, so its post state after a take call is itself. -/
def KernelSet.takePost (ks : KernelSet) (_indices : List PyIndex) : KernelSet :=
  ks

/-- Predicate selecting the dedicated set-addition error kind. -/
def isSetAdditionErr : PyError → Bool
  | .kmSetAdditionError _ => true
  | _ => false

/-- Predicate selecting the generic value-error kind. -/
def isValueErr : PyError → Bool
  | .valueError _ => true
  | _ => false

/-- Concrete fixtures used by the witnesses. -/
def kmFix : KernelMatrix :=
  { kernel := fun x y => x.getD 0 0 - 2 * y.getD 0 0
    dataset := some [[1], [2], [5]]
    cache := [] }

def ksFix : KernelSet :=
  { numSamples := some 4, members := [] }

def ksThree : KernelSet :=
  { numSamples := some 3, members := [kmFix, kmFix, kmFix] }

/-- Claim C1: for every KernelSet whose num_samples is established as N,
appending a KernelMatrix whose num_samples is M with M ≠ N raises the
dedicated KMSetAdditionError (not a generic value error) and leaves the
member count of the set unchanged. -/
theorem claim_C1_append_size_mismatch
    (ks : KernelSet) (km : KernelMatrix) (N M : Nat)
    (hN : ks.numSamples = some N) (hM : km.numSamples = some M) (hMN : M ≠ N) :
    (∃ msg, ks.append km = .error (.kmSetAdditionError msg)) ∧
    (∀ e, ks.append km = .error e → isSetAdditionErr e = true ∧ isValueErr e = false) ∧
    (ks.appendPost km).members.length = ks.members.length := by
  have happ : ks.append km = .error (.kmSetAdditionError "mismatched num_samples") := by
    unfold KernelSet.append
    rw [hM, hN]
    simp [hMN]
  refine ⟨⟨_, happ⟩, ?_, ?_⟩
  · intro e he
    rw [happ] at he
    cases he
    exact ⟨rfl, rfl⟩
  · unfold KernelSet.appendPost
    rw [happ]

/-- Witness for claim C1 at a concrete set of declared size 4 and a concrete
KernelMatrix attached to a 3-sample dataset. -/
theorem claim_C1_append_size_mismatch_witness :
    (∃ msg, ksFix.append kmFix = .error (.kmSetAdditionError msg)) ∧
    (∀ e, ksFix.append kmFix = .error e → isSetAdditionErr e = true ∧ isValueErr e = false) ∧
    (ksFix.appendPost kmFix).members.length = ksFix.members.length :=
  claim_C1_append_size_mismatch ksFix kmFix 4 3 rfl rfl (by decide)

/-- Claim C2: for every attached KernelMatrix and every pair of valid indices
i, j, the indexed accesses K[i, j] and K[j, i] return exactly the same value,
because both go through the canonical (min, max) cache key. -/
theorem claim_C2_symmetric_access
    (km : KernelMatrix) (data : List (List Int)) (i j : Nat)
    (hd : km.dataset = some data) (hi : i < data.length) (hj : j < data.length) :
    ∃ v, km.valueAt i j = .ok v ∧ km.valueAt j i = .ok v := by
  have hswap : evalKernel km data j i = evalKernel km data i j := by
    unfold evalKernel
    rw [Nat.min_comm j i, Nat.max_comm j i]
  refine ⟨(evalKernel km data i j).1, ?_, ?_⟩ <;>
    simp [KernelMatrix.valueAt, KernelMatrix.getItem, hd, hi, hj, hswap, Except.map]

/-- Witness for claim C2 on a concrete KernelMatrix whose kernel function is
deliberately not symmetric in its arguments. -/
theorem claim_C2_symmetric_access_witness :
    ∃ v, kmFix.valueAt 0 1 = .ok v ∧ kmFix.valueAt 1 0 = .ok v :=
  claim_C2_symmetric_access kmFix [[1], [2], [5]] 0 1 rfl (by decide) (by decide)

/-- Claim C3: on a KernelSet, an integer index outside [0, size) raises the
bounds (indexing) error, while a float or string index raises the value error,
and the two error kinds are distinct. -/
theorem claim_C3_getitem_error_kinds
    (ks : KernelSet) (k : Int) (x : Int) (s : String)
    (hk : k < 0 ∨ (ks.size : Int) ≤ k) :
    (∃ m, ks.getItem (.intIdx k) = .error (.indexError m)) ∧
    (∃ m, ks.getItem (.floatIdx x) = .error (.valueError m)) ∧
    (∃ m, ks.getItem (.strIdx s) = .error (.valueError m)) ∧
    (∀ m1 m2, PyError.indexError m1 ≠ PyError.valueError m2) := by
  have h1 : ks.getItem (.intIdx k) = .error (.indexError "index out of the valid range") := by
    simp [KernelSet.getItem, hk]
  refine ⟨⟨_, h1⟩, ⟨_, rfl⟩, ⟨_, rfl⟩, ?_⟩
  intro m1 m2 h
  exact PyError.noConfusion h

/-- Witness for claim C3 on a concrete 3-member set, at the integer indices
-1 and size = 3, the float index 1.0 and the string index "1". -/
theorem claim_C3_getitem_error_kinds_witness :
    ((∃ m, ksThree.getItem (.intIdx (-1)) = .error (.indexError m)) ∧
     (∃ m, ksThree.getItem (.floatIdx 1) = .error (.valueError m)) ∧
     (∃ m, ksThree.getItem (.strIdx "1") = .error (.valueError m)) ∧
     (∀ m1 m2, PyError.indexError m1 ≠ PyError.valueError m2)) ∧
    (∃ m, ksThree.getItem (.intIdx 3) = .error (.indexError m)) :=
  ⟨claim_C3_getitem_error_kinds ksThree (-1) 1 "1" (by decide),
   (claim_C3_getitem_error_kinds ksThree 3 1 "1" (by decide)).1⟩

/-- Valid integer access on a KernelSet returns the member at that position. -/
theorem getItem_valid_nat (ks : KernelSet) (i : Nat) (hi : i < ks.size) :
    ks.getItem (.intIdx (i : Int)) = .ok (ks.members.getD i defaultKM) := by
  have hcond : ¬((i : Int) < 0 ∨ (ks.size : Int) ≤ (i : Int)) := by
    push_neg
    constructor <;> omega
  simp [KernelSet.getItem, hcond]
  exact hi

/-- takeMembers on a list of valid integer indices selects exactly the
referenced members in order. -/
theorem takeMembers_valid (ks : KernelSet) (ixs : List Nat)
    (h : ∀ i ∈ ixs, i < ks.size) :
    takeMembers ks (ixs.map (fun (i : Nat) => PyIndex.intIdx (i : Int))) =
      .ok (ixs.map (fun i => ks.members.getD i defaultKM)) := by
  induction ixs with
  | nil => rfl
  | cons a rest ih =>
      have ha : a < ks.size := h a (List.mem_cons_self a rest)
      have hr : ∀ i ∈ rest, i < ks.size := fun i hi => h i (List.mem_cons_of_mem a hi)
      simp [takeMembers, getItem_valid_nat ks a ha, ih hr]

/-- Claim C4: take on valid indices returns a new KernelSet holding exactly
the referenced members (the same member objects, in the given index order),
while the original set and its size are unchanged. -/
theorem claim_C4_take_projection
    (ks : KernelSet) (ixs : List Nat) (h : ∀ i ∈ ixs, i < ks.size) :
    ∃ ks2, ks.take (ixs.map (fun (i : Nat) => PyIndex.intIdx (i : Int))) = .ok ks2 ∧
      ks2.members = ixs.map (fun i => ks.members.getD i defaultKM) ∧
      ks2.size = ixs.length ∧
      (ks.takePost (ixs.map (fun (i : Nat) => PyIndex.intIdx (i : Int)))).size = ks.size := by
  refine ⟨{ numSamples := ks.numSamples,
            members := ixs.map (fun i => ks.members.getD i defaultKM) }, ?_, rfl, ?_, rfl⟩
  · simp [KernelSet.take, takeMembers_valid ks ixs h]
  · simp [KernelSet.size]

/-- Witness for claim C4: take [0, 1] on a concrete 3-member set yields a new
2-member set while the original still has 3 members. -/
theorem claim_C4_take_projection_witness :
    ∃ ks2, ksThree.take ([0, 1].map (fun (i : Nat) => PyIndex.intIdx (i : Int))) = .ok ks2 ∧
      ks2.members = [0, 1].map (fun i => ksThree.members.getD i defaultKM) ∧
      ks2.size = [0, 1].length ∧
      (ksThree.takePost ([0, 1].map (fun (i : Nat) => PyIndex.intIdx (i : Int)))).size =
        ksThree.size :=
  claim_C4_take_projection ksThree [0, 1] (by decide)

/-- Claim C5: check_input_arrays raises a value error whenever the two inputs,
after 1-D coercion, differ in size, and returns the pair of coerced arrays
when both coerce to 1-D numeric arrays of equal size. -/
theorem claim_C5_check_input_arrays
    (x y x1 y1 : NDArray)
    (hx : ensure_ndarray_1D x = .ok x1) (hy : ensure_ndarray_1D y = .ok y1) :
    (x1.size ≠ y1.size → ∃ m, check_input_arrays x y = .error (.valueError m)) ∧
    (x1.size = y1.size → check_input_arrays x y = .ok (x1, y1)) := by
  constructor
  · intro hsz
    refine ⟨"x and y differ in size! They must be of same length", ?_⟩
    simp [check_input_arrays, hx, hy, hsz]
  · intro hsz
    simp [check_input_arrays, hx, hy, hsz]

/-- Witness for claim C5 at a pair of mismatched sizes (3 against 2) and a
pair of matched sizes (3 against 3, one input a column vector of ints). -/
theorem claim_C5_check_input_arrays_witness :
    (∃ m, check_input_arrays ⟨[3, 1], .int64, [1, 2, 3]⟩ ⟨[2], .float64, [4, 5]⟩ =
        .error (.valueError m)) ∧
    check_input_arrays ⟨[3, 1], .int64, [1, 2, 3]⟩ ⟨[3], .float64, [4, 5, 6]⟩ =
      .ok (⟨[3], .float64, [1, 2, 3]⟩, ⟨[3], .float64, [4, 5, 6]⟩) :=
  ⟨(claim_C5_check_input_arrays ⟨[3, 1], .int64, [1, 2, 3]⟩ ⟨[2], .float64, [4, 5]⟩
      ⟨[3], .float64, [1, 2, 3]⟩ ⟨[2], .float64, [4, 5]⟩ rfl rfl).1 (by decide),
   (claim_C5_check_input_arrays ⟨[3, 1], .int64, [1, 2, 3]⟩ ⟨[3], .float64, [4, 5, 6]⟩
      ⟨[3], .float64, [1, 2, 3]⟩ ⟨[3], .float64, [4, 5, 6]⟩ rfl rfl).2 rfl⟩

/-- Claim C6: check_callable raises TypeError on a non-callable input and on a
callable declaring fewer than min_num_args parameters, and returns a callable
with at least min_num_args parameters unchanged. -/
theorem claim_C6_check_callable (n min_num_args : Nat) :
    (∃ m, check_callable .notCallable min_num_args = .error (.typeError m)) ∧
    (n < min_num_args →
      ∃ m, check_callable (.callable n) min_num_args = .error (.typeError m)) ∧
    (min_num_args ≤ n →
      check_callable (.callable n) min_num_args = .ok (.callable n)) := by
  refine ⟨⟨_, rfl⟩, ?_, ?_⟩
  · intro h
    refine ⟨"Input func must accept atleast min_num_args inputs", ?_⟩
    simp [check_callable, h]
  · intro h
    have h2 : ¬ n < min_num_args := not_lt.mpr h
    simp [check_callable, h2]

/-- Witness for claim C6 at the default min_num_args = 2, with a 0-parameter
callable for the arity failure and a 2-parameter callable for success. -/
theorem claim_C6_check_callable_witness :
    (∃ m, check_callable .notCallable 2 = .error (.typeError m)) ∧
    (∃ m, check_callable (.callable 0) 2 = .error (.typeError m)) ∧
    check_callable (.callable 2) 2 = .ok (.callable 2) :=
  ⟨(claim_C6_check_callable 0 2).1,
   (claim_C6_check_callable 0 2).2.1 (by decide),
   (claim_C6_check_callable 2 2).2.2 (by decide)⟩

/-- Every error raised by ensure_ndarray_size is a value error. -/
theorem ensure_size_error_kind (a : NDArray) (nd : Nat) (e : PyError)
    (h : ensure_ndarray_size a nd = .error e) : isValueErr e = true := by
  unfold ensure_ndarray_size at h
  split at h
  · cases h
    rfl
  · split at h
    · cases h
    · cases h
      rfl

/-- Every error raised by ensure_ndarray_2D is a value error. -/
theorem ensure_2D_error_kind (a : NDArray) (cols : Option Nat) (e : PyError)
    (h : ensure_ndarray_2D a cols = .error e) : isValueErr e = true := by
  unfold ensure_ndarray_2D at h
  split at h
  case _ e2 heq =>
    cases h
    exact ensure_size_error_kind _ _ _ heq
  case _ a2 heq =>
    split at h
    · split at h
      · cases h
        rfl
      · cases h
    · cases h

/-- A successful ensure_ndarray_2D run certifies: the squeezed shape is 2-D,
the dtype was recastable, and the column count matches any requested one. -/
theorem ensure_2D_ok_inversion (a : NDArray) (cols : Option Nat) (r : NDArray)
    (h : ensure_ndarray_2D a cols = .ok r) :
    (squeezeShape 1 a.shape).length = 2 ∧ castToNumber a.dtype ≠ none ∧
    (∀ c, cols = some c → (squeezeShape 1 a.shape).getD 1 0 = c) := by
  unfold ensure_ndarray_2D at h
  split at h
  · cases h
  case _ a2 heq =>
    unfold ensure_ndarray_size at heq
    split at heq
    · cases heq
    case _ hdim =>
      simp only [NDArray.ndim] at hdim
      split at heq
      case _ d hcast =>
        cases heq
        refine ⟨by simpa using hdim, by simp [hcast], ?_⟩
        intro c hc
        subst hc
        dsimp only at h
        by_cases hcc : (squeezeShape 1 a.shape).getD 1 0 = c
        · exact hcc
        · rw [if_pos (by simpa using hcc)] at h
          cases h
      · cases heq

/-- Claim C7: ensure_ndarray_2D fails with a value error when the squeezed
shape is not 2-dimensional, when the dtype cannot be recast to the numeric
dtype, or when the column count differs from a requested ensure_num_cols; on a
valid 2-D numeric array of shape (n, d) it returns a 2-D numeric ndarray of
the same shape (n, d) and the same buffer. -/
theorem claim_C7_ensure_ndarray_2D (a : NDArray) (cols : Option Nat) :
    ((squeezeShape 1 a.shape).length ≠ 2 →
        ∃ e, ensure_ndarray_2D a cols = .error e ∧ isValueErr e = true) ∧
    (castToNumber a.dtype = none →
        ∃ e, ensure_ndarray_2D a cols = .error e ∧ isValueErr e = true) ∧
    (∀ c, cols = some c → (squeezeShape 1 a.shape).getD 1 0 ≠ c →
        ∃ e, ensure_ndarray_2D a cols = .error e ∧ isValueErr e = true) ∧
    (∀ n d dt l, a = ⟨[n, d], dt, l⟩ → dt ≠ .objBad → (cols = none ∨ cols = some d) →
        ensure_ndarray_2D a cols = .ok ⟨[n, d], .float64, l⟩) := by
  have herr : ∀ P : Prop,
      (∀ r, ensure_ndarray_2D a cols = .ok r → P) → ¬ P →
      ∃ e, ensure_ndarray_2D a cols = .error e ∧ isValueErr e = true := by
    intro P hok hnp
    cases hres : ensure_ndarray_2D a cols with
    | error e => exact ⟨e, rfl, ensure_2D_error_kind _ _ _ hres⟩
    | ok r => exact absurd (hok r hres) hnp
  refine ⟨?_, ?_, ?_, ?_⟩
  · intro hdim
    exact herr _ (fun r hr => (ensure_2D_ok_inversion a cols r hr).1) hdim
  · intro hcast
    refine herr (castToNumber a.dtype ≠ none)
      (fun r hr => (ensure_2D_ok_inversion a cols r hr).2.1) ?_
    simp [hcast]
  · intro c hc hcols
    exact herr _ (fun r hr => (ensure_2D_ok_inversion a cols r hr).2.2 c hc) hcols
  · intro n d dt l ha hdt hcols
    subst ha
    have hsq : squeezeShape 1 [n, d] = [n, d] := rfl
    have hc : castToNumber dt = some .float64 := by
      cases dt
      · rfl
      · rfl
      · rfl
      · exact absurd rfl hdt
    rcases hcols with rfl | rfl <;>
      simp [ensure_ndarray_2D, ensure_ndarray_size, NDArray.ndim, hsq, hc]

/-- Witness for claim C7: a 1-D array for the dimension failure, a bad-dtype
2-D array for the recast failure, a 2x3 int array against a requested 4
columns for the column failure, and the same 2x3 int array against a requested
3 columns for the success case. -/
theorem claim_C7_ensure_ndarray_2D_witness :
    (∃ e, ensure_ndarray_2D ⟨[5], .float64, [1, 2, 3, 4, 5]⟩ none = .error e ∧
        isValueErr e = true) ∧
    (∃ e, ensure_ndarray_2D ⟨[2, 3], .objBad, [1, 2, 3, 4, 5, 6]⟩ none = .error e ∧
        isValueErr e = true) ∧
    (∃ e, ensure_ndarray_2D ⟨[2, 3], .int64, [1, 2, 3, 4, 5, 6]⟩ (some 4) = .error e ∧
        isValueErr e = true) ∧
    ensure_ndarray_2D ⟨[2, 3], .int64, [1, 2, 3, 4, 5, 6]⟩ (some 3) =
      .ok ⟨[2, 3], .float64, [1, 2, 3, 4, 5, 6]⟩ :=
  ⟨(claim_C7_ensure_ndarray_2D ⟨[5], .float64, [1, 2, 3, 4, 5]⟩ none).1 (by decide),
   (claim_C7_ensure_ndarray_2D ⟨[2, 3], .objBad, [1, 2, 3, 4, 5, 6]⟩ none).2.1 rfl,
   (claim_C7_ensure_ndarray_2D ⟨[2, 3], .int64, [1, 2, 3, 4, 5, 6]⟩ (some 4)).2.2.1
      4 rfl (by decide),
   (claim_C7_ensure_ndarray_2D ⟨[2, 3], .int64, [1, 2, 3, 4, 5, 6]⟩ (some 3)).2.2.2
      2 3 .int64 [1, 2, 3, 4, 5, 6] rfl (by decide) (Or.inr rfl)⟩

/-- Claim C8: ensure_ndarray_1D accepts a numeric column vector of shape
(n, 1) or (n, 1, 1), returning the 1-D array of its n elements in order
(singleton axes after the first are squeezed), while a row-shaped (1, n)
array with n > 1 raises a value error. -/
theorem claim_C8_ensure_1D_column_vector
    (n : Nat) (l : List Int) (dt : DType)
    (hdt : dt = .float64 ∨ dt = .int64) :
    ensure_ndarray_1D ⟨[n, 1], dt, l⟩ = .ok ⟨[n], .float64, l⟩ ∧
    ensure_ndarray_1D ⟨[n, 1, 1], dt, l⟩ = .ok ⟨[n], .float64, l⟩ ∧
    (2 ≤ n → ∃ m, ensure_ndarray_1D ⟨[1, n], dt, l⟩ = .error (.valueError m)) := by
  have hrow : 2 ≤ n → ∃ m,
      ensure_ndarray_1D ⟨[1, n], dt, l⟩ = .error (.valueError m) := by
    intro hn
    obtain ⟨k, rfl⟩ : ∃ k, n = k + 2 := ⟨n - 2, by omega⟩
    exact ⟨"array must be of the required dimension", rfl⟩
  rcases hdt with rfl | rfl <;> exact ⟨rfl, rfl, hrow⟩

/-- Witness for claim C8 with the 3-element integer column vector and the
1-by-3 row vector. -/
theorem claim_C8_ensure_1D_column_vector_witness :
    ensure_ndarray_1D ⟨[3, 1], .int64, [7, 8, 9]⟩ = .ok ⟨[3], .float64, [7, 8, 9]⟩ ∧
    ensure_ndarray_1D ⟨[3, 1, 1], .int64, [7, 8, 9]⟩ = .ok ⟨[3], .float64, [7, 8, 9]⟩ ∧
    (2 ≤ 3 → ∃ m, ensure_ndarray_1D ⟨[1, 3], .int64, [7, 8, 9]⟩ =
        .error (.valueError m)) :=
  claim_C8_ensure_1D_column_vector 3 [7, 8, 9] .int64 (Or.inr rfl)

/-- Claim C9: is_iterable_but_not_str is False on every string regardless of
length, False on a non-string sized iterable shorter than min_length, and True
on a non-string sized iterable of length at least min_length. -/
theorem claim_C9_is_iterable_but_not_str (slen n min_length : Nat) :
    is_iterable_but_not_str (.str slen) min_length = false ∧
    (n < min_length → is_iterable_but_not_str (.sizedIter n) min_length = false) ∧
    (min_length ≤ n → is_iterable_but_not_str (.sizedIter n) min_length = true) := by
  refine ⟨rfl, ?_, ?_⟩
  · intro h
    simp [is_iterable_but_not_str, h]
  · intro h
    have h2 : ¬ n < min_length := not_lt.mpr h
    simp [is_iterable_but_not_str, h2]

/-- Witness for claim C9 at the default min_length = 1: a length-5 string, an
empty iterable and a length-3 iterable. -/
theorem claim_C9_is_iterable_but_not_str_witness :
    is_iterable_but_not_str (.str 5) 1 = false ∧
    is_iterable_but_not_str (.sizedIter 0) 1 = false ∧
    is_iterable_but_not_str (.sizedIter 3) 1 = true :=
  ⟨(claim_C9_is_iterable_but_not_str 5 0 1).1,
   (claim_C9_is_iterable_but_not_str 5 0 1).2.1 (by decide),
   (claim_C9_is_iterable_but_not_str 5 3 1).2.2 (by decide)⟩

/-- Claim C10: get_callable_name is a total function: it returns str(name)
whenever name is given regardless of the function, returns the
__name__ when name is absent and the attribute exists, and returns the empty
string otherwise. -/
theorem claim_C10_get_callable_name (fn : Option String) (name : Option PyVal) :
    (∀ v, name = some v → get_callable_name fn name = pyStrOf v) ∧
    (∀ s, name = none → fn = some s → get_callable_name fn name = s) ∧
    (name = none → fn = none → get_callable_name fn name = "") := by
  refine ⟨?_, ?_, ?_⟩
  · intro v hv
    subst hv
    rfl
  · intro s h1 h2
    subst h1
    subst h2
    rfl
  · intro h1 h2
    subst h1
    subst h2
    rfl

/-- Witness for claim C10 on all three branches: an explicit non-string name,
a function carrying a __name__, and a function without one. -/
theorem claim_C10_get_callable_name_witness :
    get_callable_name (some "f") (some (.pyInt 3)) = pyStrOf (.pyInt 3) ∧
    get_callable_name (some "f") none = "f" ∧
    get_callable_name none none = "" :=
  ⟨(claim_C10_get_callable_name (some "f") (some (.pyInt 3))).1 (.pyInt 3) rfl,
   (claim_C10_get_callable_name (some "f") none).2.1 "f" rfl rfl,
   (claim_C10_get_callable_name none none).2.2 rfl rfl⟩
